import Mathlib

/-!
Verification of the HTTP CRUD service in `src/server.js`.

The service exposes user CRUD routes backed by a document store (Mongoose
over MongoDB) and passthrough routes over S3-style buckets.  We model the
document collection as a list of user records together with a fresh-id
counter, and each Express handler as a pure function from the request data
and the outcome of its single external call to a response and a new state.
External calls that can throw are parameters of type `Except String Unit`
(or `Bool`), matching the try/catch structure of every handler.
-/

namespace Server

/-- A stored user document.  `UserSchema` declares exactly the fields
`name : String` and `email : String`; Mongoose adds the generated `_id`. -/
structure User where
  _id : Nat
  name : String
  email : String
deriving DecidableEq

/-- The state of the `Usuario` collection: the stored documents plus a
counter used to generate the next fresh `_id`. -/
structure Store where
  users : List User
  nextId : Nat
deriving DecidableEq

/-- Response bodies the handlers produce: a JSON user, a JSON list of users,
a plain message, or a message paired with an error string. -/
inductive RespBody where
  | userBody : User → RespBody
  | usersBody : List User → RespBody
  | msg : String → RespBody
  | errMsg : String → String → RespBody
deriving DecidableEq

/-- An HTTP response: status code and body. -/
structure Resp where
  status : Nat
  body : RespBody
deriving DecidableEq

/-- The JSON body of a `POST /usuarios` request: the handler destructures
`name` and `email`; any other fields are carried in `extra`. -/
structure CreateBody where
  name : Option String
  email : Option String
  extra : List (String × String)
deriving DecidableEq

/-- JavaScript falsiness of an optional string field: `!x` is true when the
field is absent or the empty string. -/
def falsy : Option String → Bool
  | none => true
  | some s => s = ""

/-- Handler for `POST /usuarios` (src/server.js:62-78).  Validates presence of `name`
and `email` (`if (!name || !email) return 400`), otherwise builds
`new User({ name, email })` — which assigns a fresh `_id` — and awaits
`user.save()`; on success responds 201 with the document, on a thrown
store error responds 500 with the error message. -/
def createUser (body : CreateBody) (st : Store) (save : Except String Unit) :
    Resp × Store :=
  if falsy body.name || falsy body.email then
    ({ status := 400, body := .msg "Nome e email são obrigatórios." }, st)
  else
    let user : User :=
      { _id := st.nextId, name := body.name.getD "", email := body.email.getD "" }
    match save with
    | .ok _ =>
        ({ status := 201, body := .userBody user },
         { users := st.users ++ [user], nextId := st.nextId + 1 })
    | .error e =>
        ({ status := 500, body := .errMsg "Erro ao criar usuário" e }, st)

/-- Lookup `User.findById`: the document with the given `_id`, if any. -/
def findById (st : Store) (id : Nat) : Option User :=
  st.users.find? (fun u => u._id == id)

/-- Handler for `GET /usuarios/:id` (src/server.js:91-102).  `ok` is whether the store
call returns rather than throws (it throws e.g. on a malformed id). -/
def getUser (id : Nat) (st : Store) (ok : Bool) : Resp :=
  if ok then
    match findById st id with
    | none => { status := 404, body := .msg "Usuário não encontrado" }
    | some u => { status := 200, body := .userBody u }
  else
    { status := 500, body := .msg "Ocorreu um erro interno" }

/-- Handler for `GET /usuarios` (src/server.js:80-89). -/
def listUsers (st : Store) (ok : Bool) : Resp :=
  if ok then
    { status := 200, body := .usersBody st.users }
  else
    { status := 500, body := .msg "Ocorreu um erro interno" }

/-- The JSON body of a `PUT /usuarios/:id` request: a partial record.
Fields not in `UserSchema` are carried in `extra` and dropped by Mongoose. -/
structure UpdateBody where
  name : Option String
  email : Option String
  extra : List (String × String)
deriving DecidableEq

/-- The merge `findByIdAndUpdate` performs: fields present in the body
overwrite the document's fields, absent fields are left unchanged. -/
def applyUpdate (u : User) (b : UpdateBody) : User :=
  { u with name := b.name.getD u.name, email := b.email.getD u.email }

/-- Handler for `PUT /usuarios/:id` (src/server.js:104-115).
`User.findByIdAndUpdate(id, body, { new: true })` merges the body into the
matching document and returns the updated document; `null` maps to 404. -/
def updateUser (id : Nat) (b : UpdateBody) (st : Store) (ok : Bool) :
    Resp × Store :=
  if ok then
    match findById st id with
    | none => ({ status := 404, body := .msg "Usuário não encontrado" }, st)
    | some u =>
        ({ status := 200, body := .userBody (applyUpdate u b) },
         { st with
            users := st.users.map (fun v => if v._id == id then applyUpdate v b else v) })
  else
    ({ status := 500, body := .msg "Ocorreu um erro interno" }, st)

/-- Handler for `DELETE /usuarios/:id` (src/server.js:117-130).
`User.deleteOne({ _id: id })` removes at most one matching document and
reports `deletedCount`; zero deletions map to 404. -/
def deleteUser (id : Nat) (st : Store) (ok : Bool) : Resp × Store :=
  if ok then
    match findById st id with
    | none => ({ status := 404, body := .msg "Usuário não encontrado" }, st)
    | some _ =>
        ({ status := 200, body := .msg "Usuário removido com sucesso" },
         { st with users := st.users.eraseP (fun u => u._id == id) })
  else
    ({ status := 500, body := .msg "Ocorreu um erro interno" }, st)

/-- Every stored `_id` was generated by an earlier `nextId`, hence is below
the current counter.  Holds of every store reachable from the empty one. -/
def idsBelow (st : Store) : Bool :=
  st.users.all (fun u => u._id < st.nextId)

/-- The generated identifiers are pairwise distinct. -/
def idsNodup (st : Store) : Bool :=
  (st.users.map User._id).Nodup

/-- An object stored in a bucket: key, payload bytes, content type
(`Key`, `Body`, `ContentType` of the S3 params). -/
structure S3Object where
  key : String
  payload : List Nat
  contentType : String
deriving DecidableEq

/-- The in-memory multipart file multer hands the upload handler. -/
structure UploadFile where
  originalname : String
  buffer : List Nat
  mimetype : String
deriving DecidableEq

/-- Response bodies of the bucket routes. -/
inductive BucketRespBody where
  | objects : List S3Object → BucketRespBody
  | msg : String → BucketRespBody
  | msgData : String → S3Object → BucketRespBody
  | msgError : String → String → BucketRespBody
deriving DecidableEq

/-- A bucket-route HTTP response. -/
structure BucketResp where
  status : Nat
  body : BucketRespBody
deriving DecidableEq

/-- The effect of `s3.upload`: stores the object under its key, overwriting any existing
object with the same key. -/
def s3Upload (bucket : List S3Object) (obj : S3Object) : List S3Object :=
  bucket.filter (fun o => o.key != obj.key) ++ [obj]

/-- The effect of `s3.deleteObject`: removes the object with the given key; succeeds
identically when no such object exists. -/
def s3DeleteObject (bucket : List S3Object) (key : String) : List S3Object :=
  bucket.filter (fun o => o.key != key)

/-- Handler for `POST /buckets/:bucketName/upload` (src/server.js:167-189).  With no
file attached the handler returns 400 before touching S3; otherwise it
forwards the buffered file with `s3.upload` and maps success to 200 and a
thrown transport error to 500.  The returned `Bool` records whether any
call to S3 was made; the returned list is the bucket's new contents. -/
def uploadHandler (bucket : List S3Object) (file : Option UploadFile)
    (transport : Except String Unit) : BucketResp × List S3Object × Bool :=
  match file with
  | none =>
      ({ status := 400, body := .msg "Nenhum arquivo enviado." }, bucket, false)
  | some f =>
      let obj : S3Object :=
        { key := f.originalname, payload := f.buffer, contentType := f.mimetype }
      match transport with
      | .ok _ =>
          ({ status := 200, body := .msgData "Upload concluído com sucesso" obj },
           s3Upload bucket obj, true)
      | .error e =>
          ({ status := 500, body := .msgError "Erro no upload" e }, bucket, true)

/-- Handler for `DELETE /buckets/:bucketName/file/:fileName` (src/server.js:191-206).
`s3.deleteObject` succeeds whether or not the key exists, so success is
always 200 with a confirmation; a thrown transport error maps to 500. -/
def deleteFileHandler (bucket : List S3Object) (fileName : String)
    (transport : Except String Unit) : BucketResp × List S3Object :=
  match transport with
  | .ok _ =>
      ({ status := 200, body := .msg "Arquivo deletado com sucesso" },
       s3DeleteObject bucket fileName)
  | .error e =>
      ({ status := 500, body := .msgError "Erro ao remover arquivo" e }, bucket)

/-- The possible outcomes of the external calls inside
`GET /mongodb/testar-conexao`: connect and `findOne` succeed with a user,
succeed finding none, or one of them throws. -/
inductive ConnOutcome where
  | foundUser : ConnOutcome
  | noUser : ConnOutcome
  | connError : ConnOutcome
deriving DecidableEq

/-- A plain-text response of the connection-test route, recording whether
the store connection was closed by the time the handler finished. -/
structure TextResp where
  status : Nat
  text : String
  connClosed : Bool
deriving DecidableEq

/-- The try/catch part of `GET /mongodb/testar-conexao`
(src/server.js:44-57): 200 with one of two messages on success, 500 on a
thrown error. -/
def testarConexaoTry : ConnOutcome → Nat × String
  | .foundUser =>
      (200, "Conexão com o MongoDB bem-sucedida e usuário encontrado!")
  | .noUser =>
      (200, "Conexão com o MongoDB bem-sucedida, mas nenhum usuário encontrado.")
  | .connError => (500, "Erro na conexão com o MongoDB")

/-- Handler for `GET /mongodb/testar-conexao` (src/server.js:44-60): the try/catch
result followed by the `finally` block, which closes the connection on
every path. -/
def testarConexao (o : ConnOutcome) : TextResp :=
  let r := testarConexaoTry o
  { status := r.1, text := r.2, connClosed := true }

/-! ### Helper lemmas -/

/-- Searching an appended list skips a prefix none of whose elements
satisfies the predicate. -/
theorem find?_append_of_forall_neg {α : Type} (p : α → Bool) (l₁ l₂ : List α)
    (h : ∀ u ∈ l₁, p u = false) : (l₁ ++ l₂).find? p = l₂.find? p := by
  induction l₁ with
  | nil => rfl
  | cons a t ih =>
      have ha : ¬ p a = true := by
        rw [h a (List.mem_cons_self a t)]; exact Bool.false_ne_true
      rw [List.cons_append, List.find?_cons_of_neg _ ha]
      exact ih (fun u hu => h u (List.mem_cons_of_mem a hu))

/-- Searching a mapped list, when the map preserves the predicate. -/
theorem find?_map_of_pred_pres {α : Type} (p : α → Bool) (g : α → α)
    (l : List α) (h : ∀ v, p (g v) = p v) :
    (l.map g).find? p = (l.find? p).map g := by
  induction l with
  | nil => rfl
  | cons a t ih =>
      by_cases hp : p a = true
      · rw [List.map_cons, List.find?_cons_of_pos, List.find?_cons_of_pos _ hp]
        · rfl
        · rw [h]; exact hp
      · rw [List.map_cons, List.find?_cons_of_neg, List.find?_cons_of_neg _ hp, ih]
        rw [h]; exact hp

/-- When a key function is injective on the elements satisfying the
predicate and the keys are pairwise distinct, after `eraseP` removes the
matching element no matching element remains. -/
theorem find?_eraseP_eq_none {α : Type} (p : α → Bool) (f : α → Nat)
    (l : List α) (hp : ∀ u v, p u = true → p v = true → f u = f v)
    (h : (l.map f).Nodup) :
    (l.eraseP p).find? p = none := by
  induction l with
  | nil => rfl
  | cons a t ih =>
      rw [List.map_cons, List.nodup_cons] at h
      by_cases ha : p a = true
      · rw [List.eraseP_cons_of_pos ha, List.find?_eq_none]
        intro u hu hb
        apply h.1
        have hfu : f u = f a := hp u a hb ha
        exact hfu ▸ List.mem_map_of_mem f hu
      · rw [List.eraseP_cons_of_neg ha, List.find?_cons_of_neg _ ha]
        exact ih h.2

/-- On a body with both fields present, create appends the freshly
identified document and returns it with 201. -/
theorem createUser_ok (b : CreateBody) (st : Store)
    (hn : falsy b.name = false) (he : falsy b.email = false) :
    createUser b st (.ok ()) =
      ({ status := 201,
         body := .userBody { _id := st.nextId, name := b.name.getD "",
                             email := b.email.getD "" } },
       { users := st.users ++
           [{ _id := st.nextId, name := b.name.getD "",
              email := b.email.getD "" }],
         nextId := st.nextId + 1 }) := by
  simp [createUser, hn, he]

/-- A document appended with the current fresh id is found by `findById`
when every stored id is below the counter. -/
theorem findById_append_fresh (st : Store) (u : User)
    (hwf : idsBelow st = true) (hu : u._id = st.nextId) :
    findById { users := st.users ++ [u], nextId := st.nextId + 1 }
      st.nextId = some u := by
  unfold findById
  rw [find?_append_of_forall_neg]
  · simp [List.find?, hu]
  · intro v hv
    unfold idsBelow at hwf
    have hlt : v._id < st.nextId := by
      simpa using List.all_eq_true.mp hwf v hv
    simp [Nat.ne_of_lt hlt]

/-- A successful get of a present id returns the document with 200. -/
theorem getUser_found (id : Nat) (st : Store) (u : User)
    (h : findById st id = some u) :
    getUser id st true = { status := 200, body := .userBody u } := by
  simp [getUser, h]

/-- A successful update of a present id applies the merge to the stored
document and returns the merged document with 200. -/
theorem updateUser_found (id : Nat) (b : UpdateBody) (st : Store) (u : User)
    (hfind : findById st id = some u) :
    updateUser id b st true =
      ({ status := 200, body := .userBody (applyUpdate u b) },
       { st with users := st.users.map (fun v =>
          if v._id == id then applyUpdate v b else v) }) := by
  simp [updateUser, hfind]

/-- Sample user for the witnesses below. -/
def ana : User := { _id := 0, name := "Ana", email := "ana@x.com" }

/-- Sample store holding one user. -/
def sampleStore : Store := { users := [ana], nextId := 1 }

/-- Sample valid create body. -/
def beaBody : CreateBody :=
  { name := some "Bea", email := some "bea@x.com", extra := [] }

/-- Sample create body with an extra field besides name and email. -/
def extraBody : CreateBody :=
  { name := some "Bea", email := some "bea@x.com",
    extra := [("role", "admin")] }

/-! ### Claim theorems -/

/-- C3: a create request missing `name` or `email` (absent or the empty
string) is answered 400 and issues no write: the collection is unchanged,
whatever the store call would have returned. -/
theorem create_missing_field_400_no_write (b : CreateBody) (st : Store)
    (save : Except String Unit) (h : (falsy b.name || falsy b.email) = true) :
    (createUser b st save).1.status = 400 ∧ (createUser b st save).2 = st := by
  unfold createUser
  rw [if_pos h]
  exact ⟨rfl, rfl⟩

theorem create_missing_field_400_no_write_witness :
    (createUser ⟨some "Ana", none, []⟩ ⟨[], 0⟩ (.ok ())).1.status = 400 ∧
    (createUser ⟨some "Ana", none, []⟩ ⟨[], 0⟩ (.ok ())).2 = ⟨[], 0⟩ :=
  create_missing_field_400_no_write ⟨some "Ana", none, []⟩ ⟨[], 0⟩ (.ok ())
    (by decide)

/-- C6: an upload request carrying no file is answered 400, the bucket is
unchanged, and no call is made to the storage service, whatever the
transport would have returned. -/
theorem upload_no_file_400_no_s3_call (bucket : List S3Object)
    (transport : Except String Unit) :
    uploadHandler bucket none transport =
      ({ status := 400, body := .msg "Nenhum arquivo enviado." }, bucket, false) :=
  rfl

/-- C7: a delete-object request is answered 200 with a confirmation message
whenever the storage call succeeds — also when no object with the given key
exists — and 500 with a message and the error when the call throws. -/
theorem delete_file_200_even_if_absent (bucket : List S3Object)
    (fileName e : String) :
    ((deleteFileHandler bucket fileName (.ok ())).1 =
       { status := 200, body := .msg "Arquivo deletado com sucesso" }) ∧
    (fileName ∉ bucket.map S3Object.key →
       (deleteFileHandler bucket fileName (.ok ())).1.status = 200) ∧
    ((deleteFileHandler bucket fileName (.error e)).1 =
       { status := 500, body := .msgError "Erro ao remover arquivo" e }) :=
  ⟨rfl, fun _ => rfl, rfl⟩

theorem delete_file_200_even_if_absent_witness :
    (deleteFileHandler [] "missing.txt" (.ok ())).1.status = 200 :=
  (delete_file_200_even_if_absent [] "missing.txt" "err").2.1 (by decide)

/-- C8: the connection-test route answers 200 with one of the two success
texts or 500 with the failure text, and on every path the store connection
is closed by the time the handler finishes. -/
theorem testar_conexao_texts_and_close (o : ConnOutcome) :
    (((testarConexao o).status = 200 ∧
        ((testarConexao o).text =
            "Conexão com o MongoDB bem-sucedida e usuário encontrado!" ∨
          (testarConexao o).text =
            "Conexão com o MongoDB bem-sucedida, mas nenhum usuário encontrado.")) ∨
      ((testarConexao o).status = 500 ∧
        (testarConexao o).text = "Erro na conexão com o MongoDB")) ∧
    (testarConexao o).connClosed = true := by
  cases o <;> simp [testarConexao, testarConexaoTry]

/-- C1: creating a user with non-empty name and email succeeds with 201 and
some record, and getting the id of that record from the resulting store
(with no intervening update or delete) returns 200 with a record carrying
the same name and email. -/
theorem create_then_get_roundtrip (b : CreateBody) (st : Store)
    (hwf : idsBelow st = true) (hn : falsy b.name = false)
    (he : falsy b.email = false) :
    ∃ rec : User,
      (createUser b st (.ok ())).1 =
        { status := 201, body := .userBody rec } ∧
      b.name = some rec.name ∧ b.email = some rec.email ∧
      getUser rec._id (createUser b st (.ok ())).2 true =
        { status := 200, body := .userBody rec } := by
  obtain ⟨n, hbn⟩ : ∃ n, b.name = some n := by
    cases hb : b.name with
    | none => rw [hb] at hn; simp [falsy] at hn
    | some s => exact ⟨s, rfl⟩
  obtain ⟨m, hbe⟩ : ∃ m, b.email = some m := by
    cases hb : b.email with
    | none => rw [hb] at he; simp [falsy] at he
    | some s => exact ⟨s, rfl⟩
  have hck := createUser_ok b st hn he
  refine ⟨{ _id := st.nextId, name := n, email := m }, ?_, hbn, hbe, ?_⟩
  · rw [hck]; simp [hbn, hbe]
  · rw [hck]
    refine getUser_found _ _ _ ?_
    have hfb := findById_append_fresh st
      { _id := st.nextId, name := b.name.getD "", email := b.email.getD "" }
      hwf rfl
    simpa [hbn, hbe] using hfb

theorem create_then_get_roundtrip_witness :
    ∃ rec : User,
      (createUser beaBody sampleStore (.ok ())).1 =
        { status := 201, body := .userBody rec } ∧
      beaBody.name = some rec.name ∧ beaBody.email = some rec.email ∧
      getUser rec._id (createUser beaBody sampleStore (.ok ())).2 true =
        { status := 200, body := .userBody rec } :=
  create_then_get_roundtrip beaBody sampleStore (by decide) (by decide)
    (by decide)

/-- C2: a create request with non-empty name and email is answered, when the
store write succeeds, with 201 and the created record carrying the given
name and email plus a generated identifier distinct from every stored one;
when the store write throws, with 500. -/
theorem create_valid_201_or_500 (b : CreateBody) (st : Store) (e : String)
    (hwf : idsBelow st = true) (hn : falsy b.name = false)
    (he : falsy b.email = false) :
    ((createUser b st (.ok ())).1.status = 201 ∧
      (createUser b st (.ok ())).1.body =
        .userBody { _id := st.nextId, name := b.name.getD "",
                    email := b.email.getD "" } ∧
      b.name = some (b.name.getD "") ∧ b.email = some (b.email.getD "") ∧
      ∀ u ∈ st.users, u._id ≠ st.nextId) ∧
    (createUser b st (.error e)).1.status = 500 := by
  refine ⟨⟨?_, ?_, ?_, ?_, ?_⟩, ?_⟩
  · rw [createUser_ok b st hn he]
  · rw [createUser_ok b st hn he]
  · cases hb : b.name with
    | none => rw [hb] at hn; simp [falsy] at hn
    | some s => simp
  · cases hb : b.email with
    | none => rw [hb] at he; simp [falsy] at he
    | some s => simp
  · intro u hu
    unfold idsBelow at hwf
    have hlt : u._id < st.nextId := by
      simpa using List.all_eq_true.mp hwf u hu
    exact Nat.ne_of_lt hlt
  · simp [createUser, hn, he]

theorem create_valid_201_or_500_witness :
    (createUser beaBody sampleStore (.ok ())).1.status = 201 ∧
    (createUser beaBody sampleStore (.error "boom")).1.status = 500 :=
  ⟨(create_valid_201_or_500 beaBody sampleStore "boom" (by decide) (by decide)
      (by decide)).1.1,
   (create_valid_201_or_500 beaBody sampleStore "boom" (by decide) (by decide)
      (by decide)).2⟩

/-- C4: deleting an existing id returns 200 with the confirmation message
and removes the record, and a second delete of the same id (or a delete of
any id matching no record) returns 404. -/
theorem delete_twice_200_then_404 (st : Store) (id : Nat)
    (hnd : idsNodup st = true) :
    ((findById st id).isSome = true →
      (deleteUser id st true).1 =
        { status := 200, body := .msg "Usuário removido com sucesso" } ∧
      findById (deleteUser id st true).2 id = none ∧
      (deleteUser id (deleteUser id st true).2 true).1 =
        { status := 404, body := .msg "Usuário não encontrado" }) ∧
    (findById st id = none →
      (deleteUser id st true).1 =
        { status := 404, body := .msg "Usuário não encontrado" }) := by
  constructor
  · intro hs
    obtain ⟨u, hu⟩ := Option.isSome_iff_exists.mp hs
    have h1 : deleteUser id st true =
        ({ status := 200, body := .msg "Usuário removido com sucesso" },
         { st with users := st.users.eraseP (fun u => u._id == id) }) := by
      simp [deleteUser, hu]
    have hnone :
        findById { st with
          users := st.users.eraseP (fun u => u._id == id) } id = none := by
      unfold findById
      refine find?_eraseP_eq_none (fun u => u._id == id) User._id st.users
        ?_ ?_
      · intro x y hx hy
        have hx1 : x._id = id := by simpa using hx
        have hy1 : y._id = id := by simpa using hy
        rw [hx1, hy1]
      · unfold idsNodup at hnd
        simpa using hnd
    refine ⟨by rw [h1], ?_, ?_⟩
    · rw [h1]; exact hnone
    · rw [h1]; simp [deleteUser, hnone]
  · intro hnone
    simp [deleteUser, hnone]

theorem delete_twice_200_then_404_witness :
    (deleteUser 0 sampleStore true).1 =
      { status := 200, body := .msg "Usuário removido com sucesso" } ∧
    findById (deleteUser 0 sampleStore true).2 0 = none ∧
    (deleteUser 0 (deleteUser 0 sampleStore true).2 true).1 =
      { status := 404, body := .msg "Usuário não encontrado" } :=
  (delete_twice_200_then_404 sampleStore 0 (by decide)).1 (by decide)

/-- C5: updating an existing record with a body containing only a name
merges just that field: the record returned with 200, and the record now
stored under the id, carry the new name and the unchanged email and id. -/
theorem update_name_only_preserves_email (st : Store) (id : Nat) (u : User)
    (x : String) (extra : List (String × String))
    (hfind : findById st id = some u) :
    (updateUser id ⟨some x, none, extra⟩ st true).1 =
      { status := 200, body := .userBody { u with name := x } } ∧
    findById (updateUser id ⟨some x, none, extra⟩ st true).2 id =
      some { u with name := x } := by
  have hfind2 := hfind
  unfold findById at hfind2
  have hu : (u._id == id) = true := by
    simpa using List.find?_some hfind2
  have h1 := updateUser_found id ⟨some x, none, extra⟩ st u hfind
  have h2 : (updateUser id ⟨some x, none, extra⟩ st true).2 =
      { st with users := st.users.map (fun v =>
          if v._id == id then applyUpdate v ⟨some x, none, extra⟩ else v) } := by
    rw [h1]
  constructor
  · rw [h1]; simp [applyUpdate]
  · rw [h2]
    simp only [findById]
    rw [find?_map_of_pred_pres (fun w => w._id == id) (fun v =>
      if v._id == id then applyUpdate v ⟨some x, none, extra⟩ else v)
      st.users ?_]
    · rw [hfind2]
      have hu2 : u._id = id := by simpa using hu
      simp [hu2, applyUpdate]
    · intro v
      by_cases hv : (v._id == id) = true <;> simp [applyUpdate, hv]

theorem update_name_only_preserves_email_witness :
    (updateUser 0 ⟨some "X", none, []⟩ sampleStore true).1 =
      { status := 200, body := .userBody { ana with name := "X" } } ∧
    findById (updateUser 0 ⟨some "X", none, []⟩ sampleStore true).2 0 =
      some { ana with name := "X" } :=
  update_name_only_preserves_email sampleStore 0 ana "X" [] (by decide)

/-- C9: create reads only the name and email fields of its body — extra
fields change nothing — and the record stored and returned consists of
exactly the given name, the given email and the generated id. -/
theorem create_ignores_extra_fields (b : CreateBody) (st : Store)
    (hn : falsy b.name = false) (he : falsy b.email = false) :
    (∀ save, createUser b st save =
        createUser { name := b.name, email := b.email, extra := [] }
          st save) ∧
    (createUser b st (.ok ())).2.users =
      st.users ++ [{ _id := st.nextId, name := b.name.getD "",
                     email := b.email.getD "" }] ∧
    (createUser b st (.ok ())).1.body =
      .userBody { _id := st.nextId, name := b.name.getD "",
                  email := b.email.getD "" } := by
  refine ⟨fun save => rfl, ?_, ?_⟩
  · rw [createUser_ok b st hn he]
  · rw [createUser_ok b st hn he]

theorem create_ignores_extra_fields_witness :
    createUser extraBody sampleStore (.ok ()) =
      createUser { name := extraBody.name, email := extraBody.email,
                   extra := [] } sampleStore (.ok ()) :=
  (create_ignores_extra_fields extraBody sampleStore (by decide)
    (by decide)).1 (.ok ())

/-- C10: updating an existing record with an empty body is an identity:
the response is 200 with the unchanged record, the collection is unchanged,
and no presence validation of name or email is performed. -/
theorem update_empty_body_identity (st : Store) (id : Nat) (u : User)
    (extra : List (String × String)) (hfind : findById st id = some u) :
    (updateUser id ⟨none, none, extra⟩ st true).1 =
      { status := 200, body := .userBody u } ∧
    (updateUser id ⟨none, none, extra⟩ st true).2.users = st.users := by
  have happ : ∀ v : User, applyUpdate v ⟨none, none, extra⟩ = v := by
    intro v; simp [applyUpdate]
  constructor
  · simp [updateUser, hfind, happ]
  · simp [updateUser, hfind, happ]

theorem update_empty_body_identity_witness :
    (updateUser 0 ⟨none, none, []⟩ sampleStore true).1 =
      { status := 200, body := .userBody ana } ∧
    (updateUser 0 ⟨none, none, []⟩ sampleStore true).2.users =
      sampleStore.users :=
  update_empty_body_identity sampleStore 0 ana [] (by decide)

end Server
